import Mathlib

/-!
Shallow embedding of the ad-scheduling and performance-aggregation core of the
StudentLeadBackend repository (src/ad-scheduler.ts and src/storage.ts).

Modelling conventions:
* TypeScript numbers holding ids and metric counters are `Nat`; timestamps are
  `Int` milliseconds since an arbitrary epoch in a fixed-offset local timezone
  (no DST), so `Date.getHours`/`Date.setHours` become arithmetic on the
  timestamp.
* The persistence collaborator (drizzle/postgres, src/db.ts, not part of the
  core) is modelled as a `Store` value holding the campaign and post tables
  plus two failure flags: `readFailing` makes every db select throw and
  `writeFailing` makes every db insert/update throw, modelling "any read/write
  against the store fails".  Fallible TypeScript code is embedded in
  `Except String`; a `try/catch` becomes a `match` on the `Except`.
* `Math.floor(Math.random() * k)` is modelled by an explicit input in
  `[0, k)`; the random draws of `runSocialPost` are passed as a triple.
* The status column is the closed enum `scheduled/posted/failed`; the platform
  column is kept as `String` because storage.ts's aggregation defends against
  unrecognized platform strings.
* `getAllAdPosts` keeps the ordering-free list of matching rows (no claim
  depends on the `createdAt` ordering, and `createdAt` is not modelled).
-/

/-- Post status enum: `scheduled → posted | failed` (ad_posts.status). -/
inductive PostStatus where
  | scheduled
  | posted
  | failed
deriving DecidableEq

/-- Campaign record (the fields the core reads). -/
structure Campaign where
  id : Nat
  name : String
  messageTemplate : String
  formUrl : Option String
  status : String
deriving DecidableEq

/-- AdPost record (the fields the core reads and writes). -/
structure AdPost where
  id : Nat
  campaignId : Nat
  platform : String
  postContent : String
  postTime : Int
  status : PostStatus
  impressions : Nat
  clicks : Nat
  leadsCaptured : Nat
  location : String
deriving DecidableEq

/-- The five fixed platforms, in the order of ad-scheduler.ts line 65. -/
def platforms : List String :=
  ["facebook", "instagram", "twitter", "whatsapp", "telegram"]

/-- The persistence collaborator's state: the two tables the core touches,
the id counter for inserts, and the failure-injection flags for reads and
writes. -/
structure Store where
  campaigns : List Campaign
  posts : List AdPost
  nextId : Nat
  readFailing : Bool
  writeFailing : Bool
deriving DecidableEq

/-- JS truthiness of `campaign.formUrl` (null and the empty string are falsy). -/
def truthyUrl : Option String → Bool
  | none => false
  | some url => url ≠ ""

/-- `generatePostContent` (ad-scheduler.ts lines 15-50): platform-specific
transform of the campaign's message template, then the optional
call-to-action line.  TypeScript's UTF-16 `String.length`/`substring` are
modelled by Lean's character count and `String.take`. -/
def generatePostContent (campaign : Campaign) (platform : String) : String :=
  let content := campaign.messageTemplate
  let content :=
    if platform = "facebook" then
      content ++ "\n\n#StudentOpportunity #CareerGrowth"
    else if platform = "instagram" then
      content ++ "\n\n.\n.\n.\n#StudentOpportunity #CareerGrowth #StudentJobs #InternshipOpportunity"
    else if platform = "twitter" then
      let base := if content.length > 240 then content.take 237 ++ "..." else content
      base ++ "\n\n#StudentJobs"
    else if platform = "whatsapp" then
      "*" ++ campaign.name ++ "*\n\n" ++ content
    else if platform = "telegram" then
      "<b>" ++ campaign.name ++ "</b>\n\n" ++ content
    else
      content
  match campaign.formUrl with
  | some url => if url = "" then content else content ++ ("\n\nApply now: " ++ url)
  | none => content

/-- Milliseconds per hour. -/
def msPerHour : Int := 3600000

/-- Milliseconds per day. -/
def msPerDay : Int := 86400000

/-- `Date.getHours()` of a timestamp in the fixed-offset local zone. -/
def hourOf (t : Int) : Int := t % msPerDay / msPerHour

/-- Local midnight of the day containing `t`. -/
def dayStart (t : Int) : Int := t - t % msPerDay

/-- `date.setHours(h, 0, 0, 0)`: same local day, hour `h`, minutes, seconds
and milliseconds zeroed. -/
def setHours (t : Int) (h : Int) : Int := dayStart t + h * msPerHour

/-- date-fns `addHours`: shifts the timestamp by exact hours. -/
def addHours (t : Int) (n : Int) : Int := t + n * msPerHour

/-- The post-time computation of `checkAndSchedulePosts`
(ad-scheduler.ts lines 80-96). -/
def computePostTime (now : Int) : Int :=
  if hourOf now < 9 then setHours now 9
  else if 18 ≤ hourOf now then setHours (addHours now 24) 9
  else setHours now (hourOf now + 1)

/-- The insert payload of `storage.createAdPost` (AdPostInsert as used by
`checkAndSchedulePosts`); the metric columns default to zero in the table. -/
structure AdPostInsert where
  campaignId : Nat
  platform : String
  postContent : String
  postTime : Int
  status : PostStatus
  location : String
deriving DecidableEq

/-- The partial update payload of `storage.updateAdPost`
(`Partial<AdPostInsert>` restricted to the fields the core ever sends). -/
structure AdPostUpdate where
  status : Option PostStatus
  impressions : Option Nat
  clicks : Option Nat
  leadsCaptured : Option Nat
deriving DecidableEq

/-- Applying a partial update to a stored row (drizzle `set`). -/
def applyUpdate (p : AdPost) (d : AdPostUpdate) : AdPost :=
  { p with
    status := d.status.getD p.status
    impressions := d.impressions.getD p.impressions
    clicks := d.clicks.getD p.clicks
    leadsCaptured := d.leadsCaptured.getD p.leadsCaptured }

/-- The stored row produced by a db insert: the payload plus the next id and
the zero defaults of the metric columns. -/
def insertRow (s : Store) (ins : AdPostInsert) : AdPost :=
  { id := s.nextId
    campaignId := ins.campaignId
    platform := ins.platform
    postContent := ins.postContent
    postTime := ins.postTime
    status := ins.status
    impressions := 0
    clicks := 0
    leadsCaptured := 0
    location := ins.location }

/-- db insert into ad_posts: throws iff writes are failing; otherwise appends
the row with the next id and zero metrics and returns it. -/
def dbInsertAdPost (s : Store) (ins : AdPostInsert) : Except String (Store × AdPost) :=
  if s.writeFailing then .error "db write error"
  else .ok ({ s with posts := s.posts ++ [insertRow s ins], nextId := s.nextId + 1 },
    insertRow s ins)

/-- `storage.createAdPost` (storage.ts lines 525-537): on a db failure it
catches and re-throws `Error("Failed to create ad post")`. -/
def createAdPost (s : Store) (ins : AdPostInsert) : Except String (Store × AdPost) :=
  match dbInsertAdPost s ins with
  | .ok r => .ok r
  | .error _ => .error "Failed to create ad post"

/-- db update of ad_posts by id: throws iff writes are failing; otherwise
applies the partial update to the matching row and returns it (none when no
row matches, mirroring the empty `returning()` array). -/
def dbUpdateAdPost (s : Store) (id : Nat) (d : AdPostUpdate) :
    Except String (Store × Option AdPost) :=
  if s.writeFailing then .error "db write error"
  else
    match s.posts.find? (fun p => p.id == id) with
    | none => .ok (s, none)
    | some p =>
      let p' := applyUpdate p d
      .ok ({ s with posts := s.posts.map (fun q => if q.id == id then p' else q) }, some p')

/-- `storage.updateAdPost` (storage.ts lines 539-552): catches any db failure
and returns null — the same value used for not-found. -/
def updateAdPost (s : Store) (id : Nat) (d : AdPostUpdate) :
    Except String (Store × Option AdPost) :=
  match dbUpdateAdPost s id d with
  | .ok r => .ok r
  | .error _ => .ok (s, none)

/-- db select of ad_posts (storage.ts lines 491-509, try branch): the optional
campaign filter is applied by JS truthiness — `campaignId = 0` is falsy, so a
zero id selects every row. -/
def dbSelectAdPosts (s : Store) (campaignId : Option Nat) :
    Except String (List AdPost) :=
  if s.readFailing then .error "db read error"
  else
    .ok (match campaignId with
      | some cid =>
        if cid == 0 then s.posts
        else s.posts.filter (fun p => p.campaignId == cid)
      | none => s.posts)

/-- `storage.getAllAdPosts`: catches any db failure and returns `[]`. -/
def getAllAdPosts (s : Store) (campaignId : Option Nat) :
    Except String (List AdPost) :=
  match dbSelectAdPosts s campaignId with
  | .ok l => .ok l
  | .error _ => .ok []

/-- db select of a campaign by id (storage.ts lines 413-425, try branch). -/
def dbSelectCampaign (s : Store) (id : Nat) : Except String (Option Campaign) :=
  if s.readFailing then .error "db read error"
  else .ok (s.campaigns.find? (fun c => c.id == id))

/-- `storage.getCampaignById`: catches any db failure and returns null. -/
def getCampaignById (s : Store) (id : Nat) : Except String (Option Campaign) :=
  match dbSelectCampaign s id with
  | .ok r => .ok r
  | .error _ => .ok none

/-- Modelled from the spec: `storage.getActiveCampaigns`, called by
`checkAndSchedulePosts` (ad-scheduler.ts line 57), is absent from the sources
— storage.ts only defines the singular `getActiveCampaign`.  The spec
describes it as "list campaigns filtered by status = active", with
persistence failures propagating to the Scheduling Decision Engine. -/
def getActiveCampaigns (s : Store) : Except String (List Campaign) :=
  if s.readFailing then .error "db read error"
  else .ok (s.campaigns.filter (fun c => c.status == "active"))

/-- Modelled from the spec: `storage.getCampaignPosts`, called by
`checkAndSchedulePosts` (ad-scheduler.ts line 62), is absent from the sources.
The spec describes it as "list posts for a given campaign id (all statuses)",
with persistence failures propagating to the Scheduling Decision Engine. -/
def getCampaignPosts (s : Store) (campaignId : Nat) :
    Except String (List AdPost) :=
  if s.readFailing then .error "db read error"
  else .ok (s.posts.filter (fun p => p.campaignId == campaignId))

/-- The window filter of `checkAndSchedulePosts` (ad-scheduler.ts lines
73-77): existing posts for this platform whose time is strictly after `now`
and strictly before `now + 24h` (date-fns `isAfter`/`isBefore` are strict). -/
def windowPosts (existingPosts : List AdPost) (platform : String) (now : Int) :
    List AdPost :=
  existingPosts.filter (fun post =>
    post.platform == platform
      && decide (now < post.postTime)
      && decide (post.postTime < addHours now 24))

/-- The insert payload built by `checkAndSchedulePosts` (ad-scheduler.ts
lines 102-109). -/
def schedIns (campaign : Campaign) (now : Int) (platform : String) : AdPostInsert :=
  { campaignId := campaign.id
    platform := platform
    postContent := generatePostContent campaign platform
    postTime := computePostTime now
    status := .scheduled
    location := "All India" }

/-- One platform iteration of `checkAndSchedulePosts` (ad-scheduler.ts lines
67-111): if no post covers the next-24h window, create one. -/
def schedulePlatform (campaign : Campaign) (now : Int)
    (existingPosts : List AdPost) (platform : String) (s : Store) :
    Except String Store :=
  if (windowPosts existingPosts platform now).length = 0 then
    match createAdPost s (schedIns campaign now platform) with
    | .ok (s', _) => .ok s'
    | .error e => .error e
  else .ok s

/-- The inner `for (const platform of platforms)` loop: threads the store,
propagating any thrown error. -/
def runPlatforms (campaign : Campaign) (now : Int) (existingPosts : List AdPost) :
    List String → Store → Except String Store
  | [], s => .ok s
  | p :: ps, s =>
    match schedulePlatform campaign now existingPosts p s with
    | .ok s' => runPlatforms campaign now existingPosts ps s'
    | .error e => .error e

/-- One campaign iteration of `checkAndSchedulePosts`: fetch the campaign's
existing posts once, then run the five platform checks. -/
def checkCampaign (now : Int) (s : Store) (campaign : Campaign) :
    Except String Store :=
  match getCampaignPosts s campaign.id with
  | .ok existingPosts => runPlatforms campaign now existingPosts platforms s
  | .error e => .error e

/-- The outer `for (const campaign of activeCampaigns)` loop. -/
def runCampaigns (now : Int) : List Campaign → Store → Except String Store
  | [], s => .ok s
  | c :: cs, s =>
    match checkCampaign now s c with
    | .ok s' => runCampaigns now cs s'
    | .error e => .error e

/-- `checkAndSchedulePosts` (ad-scheduler.ts lines 55-113).  The TypeScript
reads the clock once per iteration; the instants are microseconds apart and
the claims quantify over a single evaluation instant, so one `now` parameter
stands for all of them.  The function returns the final store (the
TypeScript mutates the database and returns void). -/
def checkAndSchedulePosts (s : Store) (now : Int) : Except String Store :=
  match getActiveCampaigns s with
  | .ok activeCampaigns => runCampaigns now activeCampaigns s
  | .error e => .error e

/-- The update payload of `runSocialPost`'s success path, with the three
`Math.floor(Math.random() * k)` draws passed in as `r.1 ∈ [0,1000)`,
`r.2.1 ∈ [0,200)`, `r.2.2 ∈ [0,50)`. -/
def postedUpdate (r : Nat × Nat × Nat) : AdPostUpdate :=
  { status := some .posted
    impressions := some (r.1 + 200)
    clicks := some (r.2.1 + 50)
    leadsCaptured := some (r.2.2 + 5) }

/-- The update payload of `runSocialPost`'s catch path. -/
def failedUpdate : AdPostUpdate :=
  { status := some .failed
    impressions := none
    clicks := none
    leadsCaptured := none }

/-- `runSocialPost` (ad-scheduler.ts lines 120-145): try the posted-update;
on a thrown error, fall back to the failed-update (whose own error, raised
inside the catch block, would propagate).  The returned value is the row
`storage.updateAdPost` returns, which is null when the update fails or finds
no row — the TypeScript type `AdPost` notwithstanding. -/
def runSocialPost (s : Store) (post : AdPost) (r : Nat × Nat × Nat) :
    Except String (Store × Option AdPost) :=
  match updateAdPost s post.id (postedUpdate r) with
  | .ok res => .ok res
  | .error _ =>
    match updateAdPost s post.id failedUpdate with
    | .ok res => .ok res
    | .error e => .error e

/-- `runAllSocialPosts` (ad-scheduler.ts lines 152-165): run each post whose
status is exactly `scheduled` through `runSocialPost` (consuming one random
triple), pass every other post through unchanged. -/
def runAllSocialPosts (s : Store) (posts : List AdPost)
    (rs : List (Nat × Nat × Nat)) :
    Except String (Store × List (Option AdPost)) :=
  match posts with
  | [] => .ok (s, [])
  | post :: rest =>
    if post.status = PostStatus.scheduled then
      match runSocialPost s post (rs.headD (0, 0, 0)) with
      | .ok (s', up) =>
        match runAllSocialPosts s' rest rs.tail with
        | .ok (s'', ups) => .ok (s'', up :: ups)
        | .error e => .error e
      | .error e => .error e
    else
      match runAllSocialPosts s rest rs with
      | .ok (s'', ups) => .ok (s'', some post :: ups)
      | .error e => .error e

/-- The rate expression used throughout `getCampaignPerformance`
(storage.ts lines 653-654 and 680-681):
`den > 0 ? (num / den) * 100 : 0`, over exact rationals. -/
def rateOf (num den : Nat) : Rat :=
  if 0 < den then ((num : Rat) / (den : Rat)) * 100 else 0

/-- Per-platform analytics bucket (AdPostAnalytics). -/
structure AdPostAnalytics where
  impressions : Nat
  clicks : Nat
  leadsCaptured : Nat
  ctr : Rat
  conversionRate : Rat
deriving DecidableEq

/-- The `Record<SocialPlatform, AdPostAnalytics>` with its five fixed keys. -/
structure PlatformBreakdown where
  facebook : AdPostAnalytics
  instagram : AdPostAnalytics
  twitter : AdPostAnalytics
  whatsapp : AdPostAnalytics
  telegram : AdPostAnalytics
deriving DecidableEq

/-- An all-zero analytics bucket. -/
def zeroAnalytics : AdPostAnalytics :=
  { impressions := 0, clicks := 0, leadsCaptured := 0, ctr := 0, conversionRate := 0 }

/-- The all-zero platform breakdown (storage.ts lines 657-663). -/
def zeroBreakdown : PlatformBreakdown :=
  { facebook := zeroAnalytics
    instagram := zeroAnalytics
    twitter := zeroAnalytics
    whatsapp := zeroAnalytics
    telegram := zeroAnalytics }

/-- Campaign-level performance rollup (CampaignPerformance). -/
structure CampaignPerformance where
  campaign : Campaign
  totalPosts : Nat
  totalImpressions : Nat
  totalClicks : Nat
  totalLeads : Nat
  ctr : Rat
  conversionRate : Rat
  platformBreakdown : PlatformBreakdown
deriving DecidableEq

/-- The zeroed CampaignPerformance returned when the campaign has no posts
(storage.ts lines 598-645). -/
def zeroPerformance (campaign : Campaign) : CampaignPerformance :=
  { campaign := campaign
    totalPosts := 0
    totalImpressions := 0
    totalClicks := 0
    totalLeads := 0
    ctr := 0
    conversionRate := 0
    platformBreakdown := zeroBreakdown }

/-- Adding one post's metrics to an analytics bucket (storage.ts lines
669-671; the rate fields are recomputed later). -/
def addPostMetrics (a : AdPostAnalytics) (post : AdPost) : AdPostAnalytics :=
  { a with
    impressions := a.impressions + post.impressions
    clicks := a.clicks + post.clicks
    leadsCaptured := a.leadsCaptured + post.leadsCaptured }

/-- The `posts.forEach` accumulation step (storage.ts lines 666-673): route
the post's metrics to the bucket named by its platform string; unrecognized
platform values fall through untouched (`platformBreakdown[platform]` is
undefined for them). -/
def addToBreakdown (b : PlatformBreakdown) (post : AdPost) : PlatformBreakdown :=
  if post.platform = "facebook" then { b with facebook := addPostMetrics b.facebook post }
  else if post.platform = "instagram" then { b with instagram := addPostMetrics b.instagram post }
  else if post.platform = "twitter" then { b with twitter := addPostMetrics b.twitter post }
  else if post.platform = "whatsapp" then { b with whatsapp := addPostMetrics b.whatsapp post }
  else if post.platform = "telegram" then { b with telegram := addPostMetrics b.telegram post }
  else b

/-- The per-platform rate pass (storage.ts lines 676-682). -/
def withRates (a : AdPostAnalytics) : AdPostAnalytics :=
  { a with
    ctr := rateOf a.clicks a.impressions
    conversionRate := rateOf a.leadsCaptured a.clicks }

/-- Rates applied to every bucket of a breakdown. -/
def breakdownWithRates (b : PlatformBreakdown) : PlatformBreakdown :=
  { facebook := withRates b.facebook
    instagram := withRates b.instagram
    twitter := withRates b.twitter
    whatsapp := withRates b.whatsapp
    telegram := withRates b.telegram }

/-- `posts.reduce((sum, post) => sum + post.impressions, 0)`. -/
def sumImpressions (posts : List AdPost) : Nat :=
  posts.foldl (fun sum post => sum + post.impressions) 0

/-- `posts.reduce((sum, post) => sum + post.clicks, 0)`. -/
def sumClicks (posts : List AdPost) : Nat :=
  posts.foldl (fun sum post => sum + post.clicks) 0

/-- `posts.reduce((sum, post) => sum + post.leadsCaptured, 0)`. -/
def sumLeads (posts : List AdPost) : Nat :=
  posts.foldl (fun sum post => sum + post.leadsCaptured) 0

/-- The non-empty aggregation path of `getCampaignPerformance`
(storage.ts lines 647-693). -/
def aggregatePerformance (campaign : Campaign) (posts : List AdPost) :
    CampaignPerformance :=
  { campaign := campaign
    totalPosts := posts.length
    totalImpressions := sumImpressions posts
    totalClicks := sumClicks posts
    totalLeads := sumLeads posts
    ctr := rateOf (sumClicks posts) (sumImpressions posts)
    conversionRate := rateOf (sumLeads posts) (sumClicks posts)
    platformBreakdown := breakdownWithRates (posts.foldl addToBreakdown zeroBreakdown) }

/-- The try-block body of `storage.getCampaignPerformance`
(storage.ts lines 589-693). -/
def getCampaignPerformanceBody (s : Store) (campaignId : Nat) :
    Except String (Option CampaignPerformance) :=
  match getCampaignById s campaignId with
  | .error e => .error e
  | .ok none => .ok none
  | .ok (some campaign) =>
    match getAllAdPosts s (some campaignId) with
    | .error e => .error e
    | .ok posts =>
      if posts.length = 0 then .ok (some (zeroPerformance campaign))
      else .ok (some (aggregatePerformance campaign posts))

/-- `storage.getCampaignPerformance` (storage.ts lines 588-698): the whole
body sits in a try/catch whose catch returns null. -/
def getCampaignPerformance (s : Store) (campaignId : Nat) :
    Except String (Option CampaignPerformance) :=
  match getCampaignPerformanceBody s campaignId with
  | .ok r => .ok r
  | .error _ => .ok none

/-- The number of stored posts belonging to a given campaign and platform
(the quantity the at-most-one-per-window claims are about). -/
def countFor (s : Store) (campaignId : Nat) (platform : String) : Nat :=
  (s.posts.filter (fun p => p.campaignId == campaignId && p.platform == platform)).length

/-- The call-to-action suffix `generatePostContent` appends when the campaign
has a (truthy) form URL, and the empty string otherwise. -/
def ctaLine (c : Campaign) : String :=
  match c.formUrl with
  | some url => if url = "" then "" else "\n\nApply now: " ++ url
  | none => ""

/-! Concrete fixtures used by the counterexamples and witnesses below. -/

/-- An active campaign with a short template and no form URL. -/
def exCampaign : Campaign :=
  { id := 1, name := "Summer Drive", messageTemplate := "hello students",
    formUrl := none, status := "active" }

/-- A facebook post of campaign 1 scheduled at timestamp 0. -/
def exPostAtNow : AdPost :=
  { id := 10, campaignId := 1, platform := "facebook", postContent := "x",
    postTime := 0, status := .scheduled, impressions := 0, clicks := 0,
    leadsCaptured := 0, location := "All India" }

/-- Store with one active campaign and one facebook post at time 0. -/
def exStoreAtNow : Store :=
  { campaigns := [exCampaign], posts := [exPostAtNow], nextId := 11,
    readFailing := false, writeFailing := false }

/-- A post of campaign 1 for a given platform at timestamp 5000. -/
def exPostCover (p : String) : AdPost :=
  { id := 20, campaignId := 1, platform := p, postContent := "x",
    postTime := 5000, status := .scheduled, impressions := 0, clicks := 0,
    leadsCaptured := 0, location := "All India" }

/-- Five posts of campaign 1, one per platform, all at timestamp 5000. -/
def exPostsCover : List AdPost := platforms.map exPostCover

/-- Store where every platform of campaign 1 already has a post strictly
inside the (0, 24h) window. -/
def exStoreCovered : Store :=
  { campaigns := [exCampaign], posts := exPostsCover, nextId := 30,
    readFailing := false, writeFailing := false }

/-- A 238-character message template. -/
def tpl238 : String := String.mk (List.replicate 238 'a')

/-- A campaign whose template has 238 characters. -/
def exCampaign238 : Campaign :=
  { id := 2, name := "Long", messageTemplate := tpl238, formUrl := none,
    status := "active" }

/-- A 241-character message template. -/
def tpl241 : String := String.mk (List.replicate 241 'b')

/-- A campaign whose template has 241 characters and which carries a form
URL. -/
def exCampaign241 : Campaign :=
  { id := 3, name := "W", messageTemplate := tpl241, formUrl := some "http://f",
    status := "active" }

/-- Store whose writes fail, holding the scheduled facebook post. -/
def exStoreWrite : Store :=
  { campaigns := [exCampaign], posts := [exPostAtNow], nextId := 11,
    readFailing := false, writeFailing := true }

/-- Store whose writes fail and whose post table is empty. -/
def exStoreWriteEmpty : Store :=
  { campaigns := [exCampaign], posts := [], nextId := 11,
    readFailing := false, writeFailing := true }

/-- Store whose reads fail, holding campaign 1. -/
def exStoreRead : Store :=
  { campaigns := [exCampaign], posts := [exPostAtNow], nextId := 11,
    readFailing := true, writeFailing := false }

/-- Healthy store with campaign 1 and an empty post table. -/
def exStoreNoPosts : Store :=
  { campaigns := [exCampaign], posts := [], nextId := 11,
    readFailing := false, writeFailing := false }

/-- A post of campaign 1 already in the terminal `posted` state with
nonzero metrics. -/
def exPostDone : AdPost :=
  { id := 40, campaignId := 1, platform := "facebook", postContent := "x",
    postTime := 0, status := .posted, impressions := 500, clicks := 100,
    leadsCaptured := 20, location := "All India" }

/-- Healthy store holding only the terminal post. -/
def exStoreDone : Store :=
  { campaigns := [exCampaign], posts := [exPostDone], nextId := 41,
    readFailing := false, writeFailing := false }

/-- A campaign whose id is 0. -/
def exCampaignZero : Campaign :=
  { id := 0, name := "Zero", messageTemplate := "m", formUrl := none,
    status := "active" }

/-- A post belonging to the unrelated campaign 7. -/
def exPostOther : AdPost :=
  { id := 50, campaignId := 7, platform := "facebook", postContent := "x",
    postTime := 0, status := .posted, impressions := 100, clicks := 10,
    leadsCaptured := 2, location := "All India" }

/-- Healthy store with campaign 0 (no posts of its own) and one post of
campaign 7. -/
def exStoreZeroId : Store :=
  { campaigns := [exCampaignZero], posts := [exPostOther], nextId := 60,
    readFailing := false, writeFailing := false }

/-- Two facebook posts of campaign 1 with the metric values of the spec's
aggregation example (100/10/2 and 50/5/1). -/
def exPostsPerf : List AdPost :=
  [{ id := 70, campaignId := 1, platform := "facebook", postContent := "x",
     postTime := 0, status := .posted, impressions := 100, clicks := 10,
     leadsCaptured := 2, location := "All India" },
   { id := 71, campaignId := 1, platform := "facebook", postContent := "x",
     postTime := 0, status := .posted, impressions := 50, clicks := 5,
     leadsCaptured := 1, location := "All India" }]

/-- Healthy store holding the two metric-bearing posts of campaign 1. -/
def exStorePerf : Store :=
  { campaigns := [exCampaign], posts := exPostsPerf, nextId := 80,
    readFailing := false, writeFailing := false }

/-! Theorems. -/

/-- `s ++ "" = s` for strings. -/
theorem string_append_empty (s : String) : s ++ "" = s := by
  apply String.ext
  rw [String.data_append]
  exact List.append_nil _

/-- `generatePostContent` for twitter splits into the platform transform
followed by the call-to-action suffix. -/
theorem generatePostContent_twitter (c : Campaign) :
    generatePostContent c "twitter" =
      ((if c.messageTemplate.length > 240
          then c.messageTemplate.take 237 ++ "..."
          else c.messageTemplate) ++ "\n\n#StudentJobs") ++ ctaLine c := by
  unfold generatePostContent ctaLine
  cases h : c.formUrl with
  | none => simp [string_append_empty]
  | some url =>
    by_cases hu : url = "" <;> simp [hu, string_append_empty]

set_option maxRecDepth 4000 in
/-- C2 (counterexample): a 238-character template is strictly longer than 237
characters, yet `generatePostContent` for twitter leaves it untruncated and
appends no ellipsis — the source only truncates templates longer than 240
characters, so the claimed truncation threshold of 237 is wrong. -/
theorem c2_counterexample :
    tpl238.length = 238 ∧
    generatePostContent exCampaign238 "twitter" = tpl238 ++ "\n\n#StudentJobs" := by
  constructor
  · decide
  · rfl

/-- C2 (amended): `generatePostContent` for twitter truncates the base
template to 237 characters and appends an ellipsis exactly when the template
is longer than 240 characters (not 237); the single hashtag and then the
optional call-to-action line follow the (possibly truncated) base. -/
theorem c2_twitter_truncation (c : Campaign) :
    (240 < c.messageTemplate.length →
      generatePostContent c "twitter" =
        ((c.messageTemplate.take 237 ++ "...") ++ "\n\n#StudentJobs") ++ ctaLine c) ∧
    (c.messageTemplate.length ≤ 240 →
      generatePostContent c "twitter" =
        (c.messageTemplate ++ "\n\n#StudentJobs") ++ ctaLine c) := by
  constructor
  · intro h
    rw [generatePostContent_twitter, if_pos (by omega)]
  · intro h
    rw [generatePostContent_twitter, if_neg (by omega)]

set_option maxRecDepth 4000 in
/-- C2 (witness): the amended truncation rule applied to a concrete
241-character template. -/
theorem c2_twitter_truncation_witness :
    generatePostContent exCampaign241 "twitter" =
      ((tpl241.take 237 ++ "...") ++ "\n\n#StudentJobs") ++ ctaLine exCampaign241 :=
  (c2_twitter_truncation exCampaign241).1 (by decide)

/-- C3 (counterexample): when the persistence update fails during
`runSocialPost` (failing writes), the function does not return a record in
status `failed` with unchanged metrics — `storage.updateAdPost` swallows the
failure and returns null, so `runSocialPost` returns null from its success
path and the store is left untouched. -/
theorem c3_counterexample :
    exStoreWrite.writeFailing = true ∧
    exPostAtNow.status = PostStatus.scheduled ∧
    runSocialPost exStoreWrite exPostAtNow (0, 0, 0) =
      Except.ok (exStoreWrite, none) := by
  refine ⟨rfl, rfl, ?_⟩
  rfl

/-- C3 (amended): a persistence failure during `runSocialPost`'s update is
absorbed below it — `storage.updateAdPost` catches the throw and returns
null, so `runSocialPost` returns null (not a `failed` record) through its
success path, leaves the store unchanged, and propagates nothing. -/
theorem c3_update_failure_absorbed (s : Store) (post : AdPost)
    (r : Nat × Nat × Nat) (h : s.writeFailing = true) :
    runSocialPost s post r = Except.ok (s, none) := by
  simp [runSocialPost, updateAdPost, dbUpdateAdPost, h]

/-- C3 (witness): the amended behavior at a concrete failing store. -/
theorem c3_update_failure_absorbed_witness :
    runSocialPost exStoreWrite exPostDone (3, 4, 5) =
      Except.ok (exStoreWrite, none) :=
  c3_update_failure_absorbed exStoreWrite exPostDone (3, 4, 5) rfl

/-- C5 (confirmed): the post time computed by `checkAndSchedulePosts` is
today 09:00:00.000 when the local hour is before 9, tomorrow 09:00:00.000
when it is 18 or later, and the top of the next hour otherwise; in every
case minutes, seconds and milliseconds are zeroed. -/
theorem c5_computePostTime (now : Int) :
    (hourOf now < 9 →
      computePostTime now = dayStart now + 9 * msPerHour) ∧
    (18 ≤ hourOf now →
      computePostTime now = (dayStart now + msPerDay) + 9 * msPerHour) ∧
    (9 ≤ hourOf now → hourOf now < 18 →
      computePostTime now = dayStart now + (hourOf now + 1) * msPerHour) ∧
    computePostTime now % msPerHour = 0 := by
  unfold computePostTime setHours addHours dayStart hourOf msPerDay msPerHour
  refine ⟨?_, ?_, ?_, ?_⟩ <;> intros <;> split_ifs <;> omega

/-- C5 (witness): the three boundary examples of the spec — 8:59 schedules
at 09:00 the same day, 18:00 at 09:00 the next day, 13:00 at 14:00 the same
day (timestamps on day 0 of the epoch). -/
theorem c5_computePostTime_witness :
    computePostTime (8 * 3600000 + 59 * 60000) = 32400000 ∧
    computePostTime (18 * 3600000) = 118800000 ∧
    computePostTime (13 * 3600000) = 50400000 := by
  refine ⟨?_, ?_, ?_⟩
  · rw [(c5_computePostTime (8 * 3600000 + 59 * 60000)).1 (by decide)]; decide
  · rw [(c5_computePostTime (18 * 3600000)).2.1 (by decide)]; decide
  · rw [(c5_computePostTime (13 * 3600000)).2.2.1 (by decide) (by decide)]; decide

/-- `storage.updateAdPost` always returns an `ok` outcome. -/
theorem updateAdPost_isOk (s : Store) (id : Nat) (d : AdPostUpdate) :
    ∃ r, updateAdPost s id d = Except.ok r := by
  unfold updateAdPost
  cases h : dbUpdateAdPost s id d with
  | ok r => exact ⟨r, rfl⟩
  | error e => exact ⟨(s, none), rfl⟩

/-- On a persistence write failure, `storage.updateAdPost` returns null with
the store untouched. -/
theorem updateAdPost_writeFailing (s : Store) (id : Nat) (d : AdPostUpdate)
    (h : s.writeFailing = true) :
    updateAdPost s id d = Except.ok (s, none) := by
  simp [updateAdPost, dbUpdateAdPost, h]

/-- `runSocialPost` always returns through its success branch — it equals the
`posted` update call itself, the catch branch being unreachable. -/
theorem runSocialPost_eq_update (s : Store) (post : AdPost)
    (r : Nat × Nat × Nat) :
    runSocialPost s post r = updateAdPost s post.id (postedUpdate r) := by
  obtain ⟨res, hres⟩ := updateAdPost_isOk s post.id (postedUpdate r)
  rw [runSocialPost, hres]

/-- C10 (confirmed): `storage.updateAdPost` never throws — every outcome is
an `ok`, and a persistence failure yields null (the not-found value) with the
store untouched; consequently `runSocialPost` always returns through its
success path (its catch branch is unreachable via this storage layer). -/
theorem c10_updateAdPost_never_throws :
    (∀ (s : Store) (id : Nat) (d : AdPostUpdate),
      ∃ r, updateAdPost s id d = Except.ok r) ∧
    (∀ (s : Store) (id : Nat) (d : AdPostUpdate), s.writeFailing = true →
      updateAdPost s id d = Except.ok (s, none)) ∧
    (∀ (s : Store) (post : AdPost) (r : Nat × Nat × Nat),
      runSocialPost s post r = updateAdPost s post.id (postedUpdate r)) :=
  ⟨updateAdPost_isOk, updateAdPost_writeFailing, runSocialPost_eq_update⟩

/-- C10 (witness): the never-throws behavior at a concrete failing store. -/
theorem c10_updateAdPost_never_throws_witness :
    updateAdPost exStoreWrite 10 failedUpdate = Except.ok (exStoreWrite, none) :=
  c10_updateAdPost_never_throws.2.1 exStoreWrite 10 failedUpdate rfl

/-- A successful `posted` update returns either null or a record whose status
is `posted`. -/
theorem updateAdPost_posted_shape (s : Store) (id : Nat) (r : Nat × Nat × Nat)
    (s' : Store) (up : Option AdPost)
    (h : updateAdPost s id (postedUpdate r) = Except.ok (s', up)) :
    up = none ∨ ∃ q, up = some q ∧ q.status = PostStatus.posted := by
  unfold updateAdPost dbUpdateAdPost at h
  cases hw : s.writeFailing with
  | true => simp [hw] at h; exact Or.inl h.2.symm
  | false =>
    cases hf : s.posts.find? (fun p => p.id == id) with
    | none => simp [hw, hf] at h; exact Or.inl h.2.symm
    | some p =>
      simp [hw, hf] at h
      exact Or.inr ⟨applyUpdate p (postedUpdate r), h.2.symm, rfl⟩

/-- The result of `runSocialPost` is either null or a record whose status is
`posted` (through this storage layer the catch branch never runs, so a
`failed` record is never returned). -/
theorem runSocialPost_result_shape (s : Store) (post : AdPost)
    (r : Nat × Nat × Nat) (s' : Store) (up : Option AdPost)
    (h : runSocialPost s post r = Except.ok (s', up)) :
    up = none ∨ ∃ q, up = some q ∧ q.status = PostStatus.posted := by
  rw [runSocialPost_eq_update s post r] at h
  exact updateAdPost_posted_shape s post.id r s' up h

/-- The per-position relation the amended C4 asserts between an input post
and its slot in the output of `runAllSocialPosts`. -/
def c4Slot (post : AdPost) (slot : Option AdPost) : Prop :=
  (post.status ≠ PostStatus.scheduled → slot = some post) ∧
  (post.status = PostStatus.scheduled →
    slot = none ∨ ∃ q, slot = some q ∧ q.status = PostStatus.posted)

/-- C4 (counterexample): running a `scheduled` post that has no row in the
store leaves a null at its output position — not a record in status `posted`
or `failed` as the claim requires. -/
theorem c4_counterexample :
    exPostAtNow.status = PostStatus.scheduled ∧
    runAllSocialPosts exStoreNoPosts [exPostAtNow] [(0, 0, 0)] =
      Except.ok (exStoreNoPosts, [none]) := by
  exact ⟨rfl, rfl⟩

/-- C4 (amended): `runAllSocialPosts` returns a same-length, same-order
sequence in which every non-`scheduled` post passes through unchanged and
every `scheduled` post is replaced by the `runSocialPost` result — which is
either null (update failed or no matching row) or a record in status
`posted`; no slot remains `scheduled` (and none is `failed`, since the catch
branch is unreachable through this storage layer). -/
theorem c4_runAllSocialPosts (s : Store) (posts : List AdPost)
    (rs : List (Nat × Nat × Nat)) (s' : Store) (out : List (Option AdPost))
    (h : runAllSocialPosts s posts rs = Except.ok (s', out)) :
    out.length = posts.length ∧ List.Forall₂ c4Slot posts out := by
  induction posts generalizing s rs s' out with
  | nil =>
    unfold runAllSocialPosts at h
    simp at h
    simp [h.2.symm]
  | cons post rest ih =>
    unfold runAllSocialPosts at h
    by_cases hs : post.status = PostStatus.scheduled
    · rw [if_pos hs] at h
      cases hr : runSocialPost s post (rs.headD (0, 0, 0)) with
      | error e => rw [hr] at h; simp at h
      | ok pr =>
        obtain ⟨s₂, up⟩ := pr
        rw [hr] at h
        dsimp only at h
        cases hrest : runAllSocialPosts s₂ rest rs.tail with
        | error e => rw [hrest] at h; simp at h
        | ok pr2 =>
          obtain ⟨s₃, ups⟩ := pr2
          rw [hrest] at h
          simp at h
          obtain ⟨ihlen, ihall⟩ := ih s₂ rs.tail s₃ ups hrest
          refine ⟨?_, ?_⟩
          · rw [← h.2]; simp [ihlen]
          · rw [← h.2]
            exact List.Forall₂.cons
              ⟨fun hns => absurd hs hns,
               fun _ => runSocialPost_result_shape s post (rs.headD (0, 0, 0)) s₂ up hr⟩
              ihall
    · rw [if_neg hs] at h
      cases hrest : runAllSocialPosts s rest rs with
      | error e => rw [hrest] at h; simp at h
      | ok pr2 =>
        obtain ⟨s₃, ups⟩ := pr2
        rw [hrest] at h
        simp at h
        obtain ⟨ihlen, ihall⟩ := ih s rs s₃ ups hrest
        refine ⟨?_, ?_⟩
        · rw [← h.2]; simp [ihlen]
        · rw [← h.2]
          exact List.Forall₂.cons
            ⟨fun _ => rfl, fun hsched => absurd hsched hs⟩ ihall

/-- C4 (witness): the amended per-slot relation at a concrete mixed run — a
terminal post passes through unchanged. -/
theorem c4_runAllSocialPosts_witness :
    [some exPostDone].length = [exPostDone].length ∧
    List.Forall₂ c4Slot [exPostDone] [some exPostDone] :=
  c4_runAllSocialPosts exStoreNoPosts [exPostDone] [] exStoreNoPosts
    [some exPostDone] rfl

/-- C6 (counterexample): campaign id 0 exists and owns zero posts, yet
`getCampaignPerformance 0` is not the zeroed result — the JS-truthiness check
`if (campaignId)` in `getAllAdPosts` treats id 0 as "no filter", so the
campaign-7 post is aggregated and `totalPosts` comes back 1. -/
theorem c6_counterexample :
    exStoreZeroId.campaigns.find? (fun c => c.id == 0) = some exCampaignZero ∧
    exStoreZeroId.posts.filter (fun p => p.campaignId == 0) = [] ∧
    (match getCampaignPerformance exStoreZeroId 0 with
      | .ok (some perf) => perf.totalPosts
      | .ok none => 1000
      | .error _ => 1000) = 1 := by
  exact ⟨rfl, rfl, rfl⟩

/-- C6 (amended): for every nonzero campaign id (all database-assigned ids)
whose campaign exists and has zero posts, `getCampaignPerformance` returns
the defined zeroed performance record — totals, rates and all five platform
buckets zero — rather than an error; id 0 is excluded because the optional
campaign filter of `getAllAdPosts` drops it by JS truthiness. -/
theorem c6_zero_posts (s : Store) (cid : Nat) (c : Campaign)
    (h0 : cid ≠ 0) (hr : s.readFailing = false)
    (hc : s.campaigns.find? (fun x => x.id == cid) = some c)
    (hp : s.posts.filter (fun p => p.campaignId == cid) = []) :
    getCampaignPerformance s cid = Except.ok (some (zeroPerformance c)) := by
  have h0' : (cid == 0) = false := by simp [h0]
  unfold getCampaignPerformance getCampaignPerformanceBody getCampaignById
    dbSelectCampaign getAllAdPosts dbSelectAdPosts
  simp [hr, hc, hp, h0']

/-- C6 (witness): the zeroed result at a concrete store with campaign 1 and
an empty post table. -/
theorem c6_zero_posts_witness :
    getCampaignPerformance exStoreNoPosts 1 =
      Except.ok (some (zeroPerformance exCampaign)) :=
  c6_zero_posts exStoreNoPosts 1 exCampaign (by decide) rfl rfl rfl

/-- The zero-denominator-yields-zero rate contract of the spec. -/
def RateSpec (num den : Nat) (r : Rat) : Prop :=
  (0 < den → r = ((num : Rat) / (den : Rat)) * 100) ∧ (den = 0 → r = 0)

/-- The five analytics buckets of a platform breakdown as a list. -/
def analyticsBuckets (b : PlatformBreakdown) : List AdPostAnalytics :=
  [b.facebook, b.instagram, b.twitter, b.whatsapp, b.telegram]

/-- `rateOf` satisfies the rate contract. -/
theorem rateOf_rateSpec (num den : Nat) : RateSpec num den (rateOf num den) := by
  constructor <;> intro h <;> simp [rateOf, h]

/-- Every performance record produced by `getCampaignPerformance` is either
the zeroed record or an aggregation of some post list. -/
theorem getCampaignPerformance_shape (s : Store) (cid : Nat)
    (perf : CampaignPerformance)
    (h : getCampaignPerformance s cid = Except.ok (some perf)) :
    (∃ c, perf = zeroPerformance c) ∨
    ∃ c posts, perf = aggregatePerformance c posts := by
  unfold getCampaignPerformance at h
  cases hb : getCampaignPerformanceBody s cid with
  | error e => rw [hb] at h; simp at h
  | ok r =>
    rw [hb] at h
    simp at h
    subst h
    unfold getCampaignPerformanceBody at hb
    cases hcamp : getCampaignById s cid with
    | error e => rw [hcamp] at hb; simp at hb
    | ok oc =>
      rw [hcamp] at hb
      cases oc with
      | none => simp at hb
      | some c =>
        dsimp only at hb
        cases hposts : getAllAdPosts s (some cid) with
        | error e => rw [hposts] at hb; simp at hb
        | ok posts =>
          rw [hposts] at hb
          dsimp only at hb
          by_cases hlen : posts.length = 0
          · rw [if_pos hlen] at hb
            simp at hb
            exact Or.inl ⟨c, hb.symm⟩
          · rw [if_neg hlen] at hb
            simp at hb
            exact Or.inr ⟨c, posts, hb.symm⟩

/-- C7 (confirmed): every rate `getCampaignPerformance` reports — the overall
ctr and conversionRate and those of all five platform buckets — equals
clicks/impressions × 100 (resp. leads/clicks × 100) when the denominator is
positive and is exactly 0 when the denominator is zero; rates are total
rational values, never an error or a NaN-like value. -/
theorem c7_rate_contract (s : Store) (cid : Nat) (perf : CampaignPerformance)
    (h : getCampaignPerformance s cid = Except.ok (some perf)) :
    RateSpec perf.totalClicks perf.totalImpressions perf.ctr ∧
    RateSpec perf.totalLeads perf.totalClicks perf.conversionRate ∧
    ∀ a ∈ analyticsBuckets perf.platformBreakdown,
      RateSpec a.clicks a.impressions a.ctr ∧
      RateSpec a.leadsCaptured a.clicks a.conversionRate := by
  rcases getCampaignPerformance_shape s cid perf h with ⟨c, rfl⟩ | ⟨c, posts, rfl⟩
  · refine ⟨⟨?_, fun _ => rfl⟩, ⟨?_, fun _ => rfl⟩, ?_⟩
    · intro hpos; exact absurd hpos (by simp [zeroPerformance])
    · intro hpos; exact absurd hpos (by simp [zeroPerformance])
    · intro a ha
      simp [zeroPerformance, zeroBreakdown, analyticsBuckets] at ha
      subst ha
      exact ⟨⟨fun hpos => absurd hpos (by simp [zeroAnalytics]), fun _ => rfl⟩,
        ⟨fun hpos => absurd hpos (by simp [zeroAnalytics]), fun _ => rfl⟩⟩
  · refine ⟨rateOf_rateSpec _ _, rateOf_rateSpec _ _, ?_⟩
    intro a ha
    simp [aggregatePerformance, breakdownWithRates, analyticsBuckets] at ha
    rcases ha with rfl | rfl | rfl | rfl | rfl <;>
      exact ⟨rateOf_rateSpec _ _, rateOf_rateSpec _ _⟩

/-- C7 (witness): the rate contract at a concrete aggregation (the spec's
two-facebook-post example: totals 150/15/3, ctr 10%, conversion 20%). -/
theorem c7_rate_contract_witness :
    RateSpec (aggregatePerformance exCampaign exPostsPerf).totalClicks
      (aggregatePerformance exCampaign exPostsPerf).totalImpressions
      (aggregatePerformance exCampaign exPostsPerf).ctr ∧
    (aggregatePerformance exCampaign exPostsPerf).ctr = 10 ∧
    (aggregatePerformance exCampaign exPostsPerf).conversionRate = 20 := by
  refine ⟨(c7_rate_contract exStorePerf 1
    (aggregatePerformance exCampaign exPostsPerf) rfl).1, ?_, ?_⟩
  · have hc : (aggregatePerformance exCampaign exPostsPerf).ctr = rateOf 15 150 := rfl
    rw [hc, rateOf, if_pos (by norm_num)]
    norm_num
  · have hc : (aggregatePerformance exCampaign exPostsPerf).conversionRate =
        rateOf 3 15 := rfl
    rw [hc, rateOf, if_pos (by norm_num)]
    norm_num

/-- A successful `schedulePlatform` either inserted the scheduled row (the
window filter was empty) or left the store untouched. -/
theorem schedulePlatform_cases (c : Campaign) (now : Int) (ex : List AdPost)
    (p : String) (s s' : Store)
    (h : schedulePlatform c now ex p s = Except.ok s') :
    ((windowPosts ex p now).length = 0 ∧ s.writeFailing = false ∧
      s' = { s with posts := s.posts ++ [insertRow s (schedIns c now p)],
                    nextId := s.nextId + 1 }) ∨
    ((windowPosts ex p now).length ≠ 0 ∧ s' = s) := by
  unfold schedulePlatform createAdPost dbInsertAdPost at h
  by_cases hw : (windowPosts ex p now).length = 0
  · rw [if_pos hw] at h
    cases hwf : s.writeFailing with
    | true => simp [hwf] at h
    | false =>
      simp [hwf] at h
      exact Or.inl ⟨hw, rfl, h.symm⟩
  · rw [if_neg hw] at h
    simp at h
    exact Or.inr ⟨hw, h.symm⟩

/-- Inserting a row that does not match the campaign/platform pair leaves the
pair's post count unchanged. -/
theorem countFor_insert_ne (s : Store) (ins : AdPostInsert) (cid : Nat)
    (pl : String) (hne : ins.campaignId ≠ cid ∨ ins.platform ≠ pl) :
    countFor { s with posts := s.posts ++ [insertRow s ins],
                      nextId := s.nextId + 1 } cid pl = countFor s cid pl := by
  unfold countFor
  rw [List.filter_append, List.length_append]
  have hzero :
      (List.filter (fun p => p.campaignId == cid && p.platform == pl)
        [insertRow s ins]).length = 0 := by
    rcases hne with h | h <;> simp [insertRow, h]
  omega

/-- A store reached by a successful `schedulePlatform` keeps every previously
stored post. -/
theorem schedulePlatform_mem (c : Campaign) (now : Int) (ex : List AdPost)
    (p : String) (s s' : Store)
    (h : schedulePlatform c now ex p s = Except.ok s') (q : AdPost)
    (hq : q ∈ s.posts) : q ∈ s'.posts := by
  rcases schedulePlatform_cases c now ex p s s' h with ⟨_, _, rfl⟩ | ⟨_, rfl⟩
  · exact List.mem_append_left _ hq
  · exact hq

/-- A successful `schedulePlatform` preserves the post count of any pair that
is already covered in the window (or belongs to another campaign). -/
theorem schedulePlatform_countFor (c : Campaign) (now : Int) (ex : List AdPost)
    (p : String) (s s' : Store) (cid : Nat) (pl : String)
    (h : schedulePlatform c now ex p s = Except.ok s')
    (hcov : c.id = cid → windowPosts ex pl now ≠ []) :
    countFor s' cid pl = countFor s cid pl := by
  rcases schedulePlatform_cases c now ex p s s' h with ⟨hwin, _, rfl⟩ | ⟨_, rfl⟩
  · apply countFor_insert_ne
    by_cases hcid : c.id = cid
    · right
      intro hppl
      subst hppl
      exact hcov hcid (List.length_eq_zero.mp (by simpa [schedIns] using hwin))
    · left
      simpa [schedIns] using hcid
  · rfl

/-- `runPlatforms` keeps every previously stored post. -/
theorem runPlatforms_mem (c : Campaign) (now : Int) (ex : List AdPost) :
    ∀ (ps : List String) (s s' : Store),
      runPlatforms c now ex ps s = Except.ok s' →
      ∀ q ∈ s.posts, q ∈ s'.posts := by
  intro ps
  induction ps with
  | nil =>
    intro s s' h q hq
    unfold runPlatforms at h
    simp at h
    exact h ▸ hq
  | cons p ps ih =>
    intro s s' h q hq
    unfold runPlatforms at h
    cases hstep : schedulePlatform c now ex p s with
    | error e => rw [hstep] at h; simp at h
    | ok s₁ =>
      rw [hstep] at h
      exact ih s₁ s' h q (schedulePlatform_mem c now ex p s s₁ hstep q hq)

/-- `runPlatforms` preserves the post count of a pair whose window is already
covered in the fetched post list. -/
theorem runPlatforms_countFor (c : Campaign) (now : Int) (ex : List AdPost)
    (cid : Nat) (pl : String) (hcov : c.id = cid → windowPosts ex pl now ≠ []) :
    ∀ (ps : List String) (s s' : Store),
      runPlatforms c now ex ps s = Except.ok s' →
      countFor s' cid pl = countFor s cid pl := by
  intro ps
  induction ps with
  | nil =>
    intro s s' h
    unfold runPlatforms at h
    simp at h
    rw [h]
  | cons p ps ih =>
    intro s s' h
    unfold runPlatforms at h
    cases hstep : schedulePlatform c now ex p s with
    | error e => rw [hstep] at h; simp at h
    | ok s₁ =>
      rw [hstep] at h
      rw [ih s₁ s' h]
      exact schedulePlatform_countFor c now ex p s s₁ cid pl hstep hcov

/-- `checkCampaign` keeps every previously stored post. -/
theorem checkCampaign_mem (now : Int) (s : Store) (c : Campaign) (s' : Store)
    (h : checkCampaign now s c = Except.ok s') :
    ∀ q ∈ s.posts, q ∈ s'.posts := by
  unfold checkCampaign getCampaignPosts at h
  cases hrf : s.readFailing with
  | true => rw [hrf] at h; simp at h
  | false =>
    rw [hrf] at h
    simp at h
    exact runPlatforms_mem c now _ platforms s s' h

/-- `checkCampaign` preserves the post count of a pair that an existing
stored post already covers strictly inside the window. -/
theorem checkCampaign_countFor (now : Int) (s : Store) (c : Campaign)
    (s' : Store) (cid : Nat) (pl : String) (q : AdPost)
    (h : checkCampaign now s c = Except.ok s')
    (hq : q ∈ s.posts) (hqc : q.campaignId = cid) (hqp : q.platform = pl)
    (h1 : now < q.postTime) (h2 : q.postTime < addHours now 24) :
    countFor s' cid pl = countFor s cid pl := by
  unfold checkCampaign getCampaignPosts at h
  cases hrf : s.readFailing with
  | true => rw [hrf] at h; simp at h
  | false =>
    rw [hrf] at h
    simp at h
    refine runPlatforms_countFor c now _ cid pl ?_ platforms s s' h
    intro hcid
    have hmem : q ∈ windowPosts
        (s.posts.filter (fun p => p.campaignId == c.id)) pl now := by
      unfold windowPosts
      rw [List.mem_filter]
      refine ⟨List.mem_filter.mpr ⟨hq, by simp [hqc, hcid]⟩, ?_⟩
      simp [hqp, h1, h2]
    exact List.ne_nil_of_mem hmem

/-- `runCampaigns` preserves the post count of a pair that an existing stored
post covers strictly inside the window. -/
theorem runCampaigns_countFor (now : Int) (cid : Nat) (pl : String) :
    ∀ (cs : List Campaign) (s s' : Store) (q : AdPost),
      runCampaigns now cs s = Except.ok s' →
      q ∈ s.posts → q.campaignId = cid → q.platform = pl →
      now < q.postTime → q.postTime < addHours now 24 →
      countFor s' cid pl = countFor s cid pl := by
  intro cs
  induction cs with
  | nil =>
    intro s s' q h _ _ _ _ _
    unfold runCampaigns at h
    simp at h
    rw [h]
  | cons c cs ih =>
    intro s s' q h hq hqc hqp h1 h2
    unfold runCampaigns at h
    cases hstep : checkCampaign now s c with
    | error e => rw [hstep] at h; simp at h
    | ok s₁ =>
      rw [hstep] at h
      have hq₁ : q ∈ s₁.posts := checkCampaign_mem now s c s₁ hstep q hq
      rw [ih s₁ s' q h hq₁ hqc hqp h1 h2]
      exact checkCampaign_countFor now s c s₁ cid pl q hstep hq hqc hqp h1 h2

/-- C1 (amended): if some existing post of the campaign for platform P has
its scheduled time strictly inside the open window (now, now+24h) — strictly
after `now`, matching the strict `isAfter` of the source — then a successful
run of `checkAndSchedulePosts` creates no additional post for that campaign
and platform.  At T = now exactly the existing post is not counted and an
additional post is created (see the counterexample). -/
theorem c1_window_coverage (s : Store) (now : Int) (cid : Nat) (pl : String)
    (q : AdPost) (s' : Store)
    (hrun : checkAndSchedulePosts s now = Except.ok s')
    (hq : q ∈ s.posts) (hqc : q.campaignId = cid) (hqp : q.platform = pl)
    (h1 : now < q.postTime) (h2 : q.postTime < addHours now 24) :
    countFor s' cid pl = countFor s cid pl := by
  unfold checkAndSchedulePosts getActiveCampaigns at hrun
  cases hrf : s.readFailing with
  | true => rw [hrf] at hrun; simp at hrun
  | false =>
    rw [hrf] at hrun
    simp at hrun
    exact runCampaigns_countFor now cid pl _ s s' q hrun hq hqc hqp h1 h2

/-- C1 (witness): a store in which every platform of the active campaign is
covered strictly inside the window is returned unchanged, and the amended
theorem applies to its facebook pair. -/
theorem c1_window_coverage_witness :
    checkAndSchedulePosts exStoreCovered 0 = Except.ok exStoreCovered ∧
    countFor exStoreCovered 1 "facebook" = countFor exStoreCovered 1 "facebook" :=
  ⟨rfl, c1_window_coverage exStoreCovered 0 1 "facebook" (exPostCover "facebook")
    exStoreCovered rfl (by decide) rfl rfl (by decide) (by decide)⟩

/-- C1 (counterexample): a post scheduled exactly at T = now — inside the
claimed closed-left window [now, now+24h) — is not matched by the strict
`isAfter` filter, so `checkAndSchedulePosts` creates an additional facebook
post for the campaign: the pair's post count rises from 1 to 2. -/
theorem c1_counterexample :
    exCampaign ∈ exStoreAtNow.campaigns.filter (fun c => c.status == "active") ∧
    exPostAtNow ∈ exStoreAtNow.posts ∧
    exPostAtNow.campaignId = exCampaign.id ∧
    exPostAtNow.platform = "facebook" ∧
    0 ≤ exPostAtNow.postTime ∧ exPostAtNow.postTime < addHours 0 24 ∧
    countFor exStoreAtNow exCampaign.id "facebook" = 1 ∧
    (match checkAndSchedulePosts exStoreAtNow 0 with
      | .ok s' => countFor s' exCampaign.id "facebook"
      | .error _ => 0) = 2 := by
  refine ⟨by decide, by decide, rfl, rfl, by decide, by decide, rfl, rfl⟩

/-- With failing writes, a platform whose window is uncovered makes
`schedulePlatform` throw the wrapped creation error. -/
theorem schedulePlatform_writeFailing_empty (c : Campaign) (now : Int)
    (ex : List AdPost) (p : String) (s : Store)
    (hwf : s.writeFailing = true) (hwin : windowPosts ex p now = []) :
    schedulePlatform c now ex p s = Except.error "Failed to create ad post" := by
  unfold schedulePlatform createAdPost dbInsertAdPost
  rw [hwin]
  simp [hwf]

/-- A platform whose window is already covered is skipped, leaving the store
untouched. -/
theorem schedulePlatform_skip (c : Campaign) (now : Int) (ex : List AdPost)
    (p : String) (s : Store) (hwin : windowPosts ex p now ≠ []) :
    schedulePlatform c now ex p s = Except.ok s := by
  unfold schedulePlatform
  rw [if_neg (by simpa [List.length_eq_zero] using hwin)]

/-- When every platform of the list is covered, `runPlatforms` returns the
store unchanged. -/
theorem runPlatforms_skip_all (c : Campaign) (now : Int) (ex : List AdPost) :
    ∀ (ps : List String) (s : Store),
      (∀ p ∈ ps, windowPosts ex p now ≠ []) →
      runPlatforms c now ex ps s = Except.ok s := by
  intro ps
  induction ps with
  | nil => intro s _; rfl
  | cons p ps ih =>
    intro s hall
    unfold runPlatforms
    rw [schedulePlatform_skip c now ex p s (hall p (List.mem_cons_self p ps))]
    exact ih s (fun p₁ hp₁ => hall p₁ (List.mem_cons_of_mem p hp₁))

/-- With failing writes, `runPlatforms` throws the wrapped creation error as
soon as some platform of the list has an uncovered window. -/
theorem runPlatforms_writeFailing_error (c : Campaign) (now : Int)
    (ex : List AdPost) :
    ∀ (ps : List String) (s : Store), s.writeFailing = true →
      (∃ p ∈ ps, windowPosts ex p now = []) →
      runPlatforms c now ex ps s = Except.error "Failed to create ad post" := by
  intro ps
  induction ps with
  | nil =>
    intro s _ hex
    simp at hex
  | cons p ps ih =>
    intro s hwf hex
    unfold runPlatforms
    by_cases hw : windowPosts ex p now = []
    · rw [schedulePlatform_writeFailing_empty c now ex p s hwf hw]
    · rw [schedulePlatform_skip c now ex p s hw]
      refine ih s hwf ?_
      rcases hex with ⟨p₁, hp₁, hwin₁⟩
      rcases List.mem_cons.mp hp₁ with rfl | hp₁'
      · exact absurd hwin₁ hw
      · exact ⟨p₁, hp₁', hwin₁⟩

/-- With failing writes and working reads, `runCampaigns` throws the wrapped
creation error as soon as some listed campaign has an uncovered platform. -/
theorem runCampaigns_writeFailing_error (now : Int) :
    ∀ (cs : List Campaign) (s : Store), s.writeFailing = true →
      s.readFailing = false →
      (∃ c ∈ cs, ∃ p ∈ platforms,
        windowPosts (s.posts.filter (fun q => q.campaignId == c.id)) p now = []) →
      runCampaigns now cs s = Except.error "Failed to create ad post" := by
  intro cs
  induction cs with
  | nil =>
    intro s _ _ hex
    simp at hex
  | cons c cs ih =>
    intro s hwf hrf hex
    unfold runCampaigns checkCampaign getCampaignPosts
    rw [hrf]
    simp only [Bool.false_eq_true, if_false]
    by_cases hc : ∃ p ∈ platforms,
        windowPosts (s.posts.filter (fun q => q.campaignId == c.id)) p now = []
    · rw [runPlatforms_writeFailing_error c now _ platforms s hwf hc]
    · push_neg at hc
      rw [runPlatforms_skip_all c now _ platforms s hc]
      refine ih s hwf hrf ?_
      rcases hex with ⟨c₁, hc₁, hexp⟩
      rcases List.mem_cons.mp hc₁ with rfl | hc₁'
      · rcases hexp with ⟨p₁, hp₁, hwin₁⟩
        exact absurd hwin₁ (hc p₁ hp₁)
      · exact ⟨c₁, hc₁', hexp⟩

/-- C8 (counterexample): a persistence read failure inside the Performance
Aggregator does not propagate — the failing `getCampaignById` read is
swallowed and `getCampaignPerformance` returns the ordinary not-found value
`ok none` instead of an error. -/
theorem c8_counterexample :
    exStoreRead.readFailing = true ∧
    dbSelectCampaign exStoreRead 1 = Except.error "db read error" ∧
    getCampaignPerformance exStoreRead 1 = Except.ok none := by
  exact ⟨rfl, rfl, rfl⟩

/-- C8 (amended): the Scheduling Decision Engine does let persistence write
failures propagate — `createAdPost` re-throws and `checkAndSchedulePosts`
catches nothing, so any uncovered campaign/platform pair surfaces the
creation error — but the Performance Aggregator does not: every persistence
failure inside `getCampaignPerformance` (including failures of its reads,
which already swallow errors themselves) is converted into the normal
not-found result `ok none`. -/
theorem c8_persistence_failures :
    (∀ (s : Store) (now : Int), s.readFailing = false → s.writeFailing = true →
      (∃ c ∈ s.campaigns.filter (fun c => c.status == "active"),
        ∃ p ∈ platforms,
          windowPosts (s.posts.filter (fun q => q.campaignId == c.id)) p now = []) →
      checkAndSchedulePosts s now = Except.error "Failed to create ad post") ∧
    (∀ (s : Store) (cid : Nat), s.readFailing = true →
      getCampaignPerformance s cid = Except.ok none) := by
  constructor
  · intro s now hrf hwf hex
    unfold checkAndSchedulePosts getActiveCampaigns
    rw [hrf]
    simp only [Bool.false_eq_true, if_false]
    exact runCampaigns_writeFailing_error now _ s hwf hrf hex
  · intro s cid hrf
    unfold getCampaignPerformance getCampaignPerformanceBody getCampaignById
      dbSelectCampaign
    simp [hrf]

/-- C8 (witness): the split behavior at concrete failing stores — the
scheduler surfaces the creation error, the aggregator returns `ok none`. -/
theorem c8_persistence_failures_witness :
    checkAndSchedulePosts exStoreWriteEmpty 0 =
      Except.error "Failed to create ad post" ∧
    getCampaignPerformance exStoreRead 7 = Except.ok none :=
  ⟨c8_persistence_failures.1 exStoreWriteEmpty 0 rfl rfl
    ⟨exCampaign, by decide, "facebook", by decide, rfl⟩,
   c8_persistence_failures.2 exStoreRead 7 rfl⟩

/-- A successful `schedulePlatform` adds only rows in status `scheduled` with
zero metrics. -/
theorem schedulePlatform_new_posts (c : Campaign) (now : Int)
    (ex : List AdPost) (p : String) (s s' : Store)
    (h : schedulePlatform c now ex p s = Except.ok s') :
    ∀ q ∈ s'.posts, q ∈ s.posts ∨
      (q.status = PostStatus.scheduled ∧ q.impressions = 0 ∧
        q.clicks = 0 ∧ q.leadsCaptured = 0) := by
  rcases schedulePlatform_cases c now ex p s s' h with ⟨_, _, rfl⟩ | ⟨_, rfl⟩
  · intro q hq
    rcases List.mem_append.mp hq with hq' | hq'
    · exact Or.inl hq'
    · rcases List.mem_singleton.mp hq' with rfl
      exact Or.inr ⟨rfl, rfl, rfl, rfl⟩
  · exact fun q hq => Or.inl hq

/-- `runPlatforms` adds only rows in status `scheduled` with zero metrics. -/
theorem runPlatforms_new_posts (c : Campaign) (now : Int) (ex : List AdPost) :
    ∀ (ps : List String) (s s' : Store),
      runPlatforms c now ex ps s = Except.ok s' →
      ∀ q ∈ s'.posts, q ∈ s.posts ∨
        (q.status = PostStatus.scheduled ∧ q.impressions = 0 ∧
          q.clicks = 0 ∧ q.leadsCaptured = 0) := by
  intro ps
  induction ps with
  | nil =>
    intro s s' h q hq
    unfold runPlatforms at h
    simp at h
    exact Or.inl (h ▸ hq)
  | cons p ps ih =>
    intro s s' h q hq
    unfold runPlatforms at h
    cases hstep : schedulePlatform c now ex p s with
    | error e => rw [hstep] at h; simp at h
    | ok s₁ =>
      rw [hstep] at h
      rcases ih s₁ s' h q hq with hq₁ | hnew
      · exact schedulePlatform_new_posts c now ex p s s₁ hstep q hq₁
      · exact Or.inr hnew

/-- `checkCampaign` adds only rows in status `scheduled` with zero metrics. -/
theorem checkCampaign_new_posts (now : Int) (s : Store) (c : Campaign)
    (s' : Store) (h : checkCampaign now s c = Except.ok s') :
    ∀ q ∈ s'.posts, q ∈ s.posts ∨
      (q.status = PostStatus.scheduled ∧ q.impressions = 0 ∧
        q.clicks = 0 ∧ q.leadsCaptured = 0) := by
  unfold checkCampaign getCampaignPosts at h
  cases hrf : s.readFailing with
  | true => rw [hrf] at h; simp at h
  | false =>
    rw [hrf] at h
    simp at h
    exact runPlatforms_new_posts c now _ platforms s s' h

/-- `runCampaigns` adds only rows in status `scheduled` with zero metrics. -/
theorem runCampaigns_new_posts (now : Int) :
    ∀ (cs : List Campaign) (s s' : Store),
      runCampaigns now cs s = Except.ok s' →
      ∀ q ∈ s'.posts, q ∈ s.posts ∨
        (q.status = PostStatus.scheduled ∧ q.impressions = 0 ∧
          q.clicks = 0 ∧ q.leadsCaptured = 0) := by
  intro cs
  induction cs with
  | nil =>
    intro s s' h q hq
    unfold runCampaigns at h
    simp at h
    exact Or.inl (h ▸ hq)
  | cons c cs ih =>
    intro s s' h q hq
    unfold runCampaigns at h
    cases hstep : checkCampaign now s c with
    | error e => rw [hstep] at h; simp at h
    | ok s₁ =>
      rw [hstep] at h
      rcases ih s₁ s' h q hq with hq₁ | hnew
      · exact checkCampaign_new_posts now s c s₁ hstep q hq₁
      · exact Or.inr hnew

/-- C9 (counterexample): a direct `runSocialPost` on a post already in the
terminal `posted` state performs no status check and mutates it again — its
stored impressions change from 500 to 200 and a fresh `posted` update is
applied, violating "immutable thereafter". -/
theorem c9_counterexample :
    exPostDone ∈ exStoreDone.posts ∧
    exPostDone.status = PostStatus.posted ∧
    exPostDone.impressions = 500 ∧
    (match runSocialPost exStoreDone exPostDone (0, 0, 0) with
      | .ok (s', _) => s'.posts.map AdPost.impressions
      | .error _ => []) = [200] := by
  refine ⟨by decide, rfl, rfl, rfl⟩

/-- C9 (amended): posts are created by the scheduler in status `scheduled`
with zero metrics, and `runAllSocialPosts` passes every non-`scheduled` post
through without touching the store; but `runSocialPost` itself performs no
status check, so a direct call on a terminal post mutates it again (see the
counterexample) — the once-terminal-always-immutable claim only holds for
the batch operation, not for the single-post operation. -/
theorem c9_lifecycle :
    (∀ (s : Store) (now : Int) (s' : Store),
      checkAndSchedulePosts s now = Except.ok s' →
      ∀ q ∈ s'.posts, q ∈ s.posts ∨
        (q.status = PostStatus.scheduled ∧ q.impressions = 0 ∧
          q.clicks = 0 ∧ q.leadsCaptured = 0)) ∧
    (∀ (s : Store) (posts : List AdPost) (rs : List (Nat × Nat × Nat)),
      (∀ post ∈ posts, post.status ≠ PostStatus.scheduled) →
      runAllSocialPosts s posts rs = Except.ok (s, posts.map some)) := by
  constructor
  · intro s now s' h q hq
    unfold checkAndSchedulePosts getActiveCampaigns at h
    cases hrf : s.readFailing with
    | true => rw [hrf] at h; simp at h
    | false =>
      rw [hrf] at h
      simp at h
      exact runCampaigns_new_posts now _ s s' h q hq
  · intro s posts
    induction posts with
    | nil => intro rs _; rfl
    | cons post rest ih =>
      intro rs hall
      unfold runAllSocialPosts
      rw [if_neg (hall post (List.mem_cons_self post rest))]
      rw [ih rs (fun p hp => hall p (List.mem_cons_of_mem post hp))]
      rfl

/-- C9 (witness): both amended guarantees at concrete inputs — a no-op
scheduling run adds nothing new, and a batch run over a terminal post leaves
store and post untouched. -/
theorem c9_lifecycle_witness :
    (exPostCover "facebook" ∈ exStoreCovered.posts ∨
      (exPostCover "facebook").status = PostStatus.scheduled ∧
        (exPostCover "facebook").impressions = 0 ∧
        (exPostCover "facebook").clicks = 0 ∧
        (exPostCover "facebook").leadsCaptured = 0) ∧
    runAllSocialPosts exStoreDone [exPostDone] [] =
      Except.ok (exStoreDone, [some exPostDone]) :=
  ⟨c9_lifecycle.1 exStoreCovered 0 exStoreCovered rfl
      (exPostCover "facebook") (by decide),
   c9_lifecycle.2 exStoreDone [exPostDone] [] (by decide)⟩
